import Mathlib

/-
Verification of the briefing-generation polling protocol of the Morning
Drive client (src/MorningDriveApp).  The definitions below are a shallow
embedding of the generation-state store (src/MorningDriveApp/src/store/index.ts)
and of the polling and error-resolution handlers of the home screen
(src/MorningDriveApp/src/screens/HomeScreen.tsx).  The asynchronous
checkStatus closure is embedded as a step function: the state at the moment
the timer fires (before the awaited fetch) and the state at the moment the
response is processed are two separate arguments, so the race between an
in-flight request and a concurrent cancellation is represented explicitly.
Values the closure reads freshly (shouldPollRef, the zustand store via
getState) come from those state arguments; the errorDialogShowing useState
value, which the closure can only see as captured at the render where the
session started, is a separate frozen argument.
-/

namespace MorningDrive

/-- One briefing, reduced to the identity used by the store and screens. -/
structure Briefing where
  id : Nat
  title : String
deriving DecidableEq, Repr

/-- One briefing segment (opaque to the generation protocol). -/
structure BriefingSegment where
  title : String
deriving DecidableEq, Repr

/-- Wire shape of one generation error, interface GenerationError in App.tsx. -/
structure GenerationError where
  phase : String
  component : String
  message : String
  recoverable : Bool
  fallback_description : Option String
deriving DecidableEq, Repr

/-- Wire shape of a pending decision point, interface PendingAction in App.tsx. -/
structure PendingAction where
  action_id : String
  error : GenerationError
  options : List String
deriving DecidableEq, Repr

/-- Wire shape of a status-poll response, interface GenerationStatus in App.tsx.
The status field is a plain string on the wire and the client compares it
against string literals, so it is kept as a String here. -/
structure GenerationStatus where
  briefing_id : Nat
  status : String
  progress_percent : Int
  current_step : Option String
  error : Option String
  errors : List GenerationError
  pending_action : Option PendingAction
deriving DecidableEq, Repr

/-- JavaScript `x || null` on an optional string: an absent or empty string
collapses to null. -/
def strOrNull (o : Option String) : Option String :=
  match o with
  | some s => if s = "" then none else some s
  | none => none

/-- JavaScript `x || d` on an optional string: an absent or empty string
falls back to the default d. -/
def strOrDefault (o : Option String) (d : String) : String :=
  match o with
  | some s => if s = "" then d else s
  | none => d

/-- The generation-relevant part of the zustand briefings store
(interface BriefingsState in store/index.ts). -/
structure BriefingsState where
  briefings : List Briefing
  currentBriefing : Option Briefing
  currentSegment : Option BriefingSegment
  isGenerating : Bool
  generatingBriefingId : Option Nat
  generationProgress : Int
  generationStep : Option String
deriving DecidableEq, Repr

/-- Store action startGeneration (store/index.ts): record the active job id
and reset progress. -/
def startGeneration (s : BriefingsState) (briefingId : Nat) : BriefingsState :=
  { s with
    isGenerating := true
    generatingBriefingId := some briefingId
    generationProgress := 0
    generationStep := some "Starting..." }

/-- Store action stopGeneration (store/index.ts): clear the active job id
and reset progress and step. -/
def stopGeneration (s : BriefingsState) : BriefingsState :=
  { s with
    isGenerating := false
    generatingBriefingId := none
    generationProgress := 0
    generationStep := none }

/-- Store action setGenerationProgress (store/index.ts): plain field update. -/
def setGenerationProgress (s : BriefingsState) (progress : Int)
    (step : Option String) : BriefingsState :=
  { s with generationProgress := progress, generationStep := step }

/-- The projection persisted by the zustand persist middleware. -/
structure PersistedBriefingsState where
  briefings : List Briefing
  currentBriefing : Option Briefing
deriving DecidableEq, Repr

/-- partialize (store/index.ts): only the first 20 cached briefings and the
current briefing are persisted. -/
def partialize (s : BriefingsState) : PersistedBriefingsState :=
  { briefings := s.briefings.take 20
    currentBriefing := s.currentBriefing }

/-- Client-side state of the home screen relevant to the polling protocol:
the store, the shouldPollRef flag, the pending setTimeout (keyed by the
session briefing id the scheduled checkStatus closure is bound to, together
with its delay in milliseconds), and the errorDialogShowing marker. -/
structure ClientState where
  store : BriefingsState
  shouldPoll : Bool
  pollingTimeout : Option (Nat × Nat)
  errorDialogShowing : Option String
deriving DecidableEq, Repr

/-- cancelPolling (HomeScreen.tsx lines 133-139): clear the continue flag and
the pending timer. -/
def cancelPolling (s : ClientState) : ClientState :=
  { s with shouldPoll := false, pollingTimeout := none }

/-- Observable effects of one handler invocation: whether getBriefingStatus
was called, the delay of a newly scheduled checkStatus timer, any alert
shown, the action id of a newly presented error dialog, and whether the
briefings query was invalidated. -/
structure StepEffect where
  fetched : Bool := false
  scheduledDelay : Option Nat := none
  alertShown : Option (String × String) := none
  dialogPresented : Option String := none
  invalidatedBriefings : Bool := false
deriving DecidableEq, Repr

/-- One button of the error dialog, as text and style. -/
structure AlertButton where
  text : String
  style : String
deriving DecidableEq, Repr

/-- Label of the continue button (HomeScreen.tsx line 197): depends on the
truthiness of the fallback description. -/
def continueButtonText (pa : PendingAction) : String :=
  match strOrNull pa.error.fallback_description with
  | some _ => "Continue with Fallback"
  | none => "Continue"

/-- Buttons built by showErrorDialog (HomeScreen.tsx lines 177-201) from the
options of the pending action. -/
def errorDialogButtons (pa : PendingAction) : List AlertButton :=
  (if pa.options.contains "cancel" then
    [{ text := "Cancel Generation", style := "destructive" }] else [])
  ++ (if pa.options.contains "retry" then
    [{ text := "Retry", style := "default" }] else [])
  ++ (if pa.options.contains "continue" then
    [{ text := continueButtonText pa, style := "default" }] else [])

/-- Message of the error dialog (HomeScreen.tsx lines 203-205). -/
def errorDialogMessage (pa : PendingAction) : String :=
  match strOrNull pa.error.fallback_description with
  | some fd => pa.error.message ++ "\n\nIf you continue: " ++ fd
  | none => pa.error.message

/-- showErrorDialog (HomeScreen.tsx lines 168-210): guard against a dialog
already showing, otherwise mark it as showing and present the alert.
errorDialogShowing is a useState variable, so the guard at line 172 reads
the value captured by the closure at the render where that closure was
created, not the live state, while setErrorDialogShowing writes only the
live state.  captured is that frozen value; s.errorDialogShowing is the
live marker.  Returns the new state and whether an alert was presented. -/
def showErrorDialog (captured : Option String) (s : ClientState) (pa : PendingAction) :
    ClientState × Bool :=
  if captured = some pa.action_id then
    (s, false)
  else
    ({ s with errorDialogShowing := some pa.action_id }, true)

/-- Successive poll-driven showErrorDialog invocations within one polling
session for the same pending action with no intervening resolution.  The
running checkStatus timer chain holds the one showErrorDialog closure it
captured when the session started, so captured is the same frozen value on
every call, while the live state is threaded from call to call.  Counts
how many dialogs were presented. -/
def showErrorDialogRepeat (captured : Option String) (pa : PendingAction) :
    Nat → ClientState → ClientState × Nat
  | 0, s => (s, 0)
  | Nat.succ n, s =>
      let d := showErrorDialog captured s pa
      let r := showErrorDialogRepeat captured pa n d.1
      (r.1, (if d.2 then 1 else 0) + r.2)

/-- handleErrorDecision (HomeScreen.tsx lines 149-165): clear the dialog
marker, then await resolveBriefingError.  Only when that call returns
successfully and the decision is cancel does the handler stop polling and
clear the store; when the call throws, the catch block shows an error alert
and performs no cleanup.  resolveOk is the outcome of the awaited call. -/
def handleErrorDecision (s : ClientState) (briefingId : Nat) (actionId : String)
    (decision : String) (resolveOk : Bool) : ClientState × StepEffect :=
  let _ := (briefingId, actionId)
  let s0 : ClientState := { s with errorDialogShowing := none }
  if resolveOk then
    if decision = "cancel" then
      let s1 := cancelPolling s0
      let s2 : ClientState := { s1 with store := stopGeneration s1.store }
      (s2, { alertShown := some ("Cancelled", "Briefing generation was cancelled.") })
    else
      (s0, {})
  else
    (s0, { alertShown := some ("Error", "Failed to send decision to server.") })

/-- Message for a failed job (HomeScreen.tsx lines 261-263): the message of
the last element of errors when non-empty, otherwise the error field with
the generic fallback (JavaScript or-semantics). -/
def failedMessage (st : GenerationStatus) : String :=
  match st.errors.getLast? with
  | some e => e.message
  | none => strOrDefault st.error "Generation failed"

/-- Alert message for completed_with_warnings (HomeScreen.tsx lines 250-254). -/
def completedWithWarningsMessage (warningCount : Nat) : String :=
  "Your briefing is ready, but " ++ toString warningCount ++ " issue"
    ++ (if warningCount > 1 then "s" else "")
    ++ " occurred during generation. Some content may be missing."

/-- One invocation of the checkStatus closure of pollGenerationStatus
(HomeScreen.tsx lines 219-281) for the session bound to briefingId.
The closure reads shouldPollRef and useBriefingsStore.getState() freshly
(these are a ref and an external store), so those come from the current
client state; but the showErrorDialog instance it holds was captured when
the session started, so the dialog guard compares against
capturedDialogShowing, the errorDialogShowing value of that render, for
the whole life of the session.  s0 is the client state when the closure
starts (the two pre-checks read it); result is the outcome of the awaited
getBriefingStatus call, Except.error for a thrown transport error; s1 is
the client state at the moment the response is processed, which may differ
from s0 because the store can change while the request is in flight.  When
the pre-checks stop the closure the fetch never happens and s1 is
irrelevant. -/
def checkStatusStep (briefingId : Nat) (capturedDialogShowing : Option String)
    (s0 : ClientState) (result : Except Unit GenerationStatus) (s1 : ClientState) :
    ClientState × StepEffect :=
  if s0.shouldPoll = false then
    (s0, {})
  else if s0.store.generatingBriefingId ≠ some briefingId then
    (s0, {})
  else
    match result with
    | Except.error _ =>
      if s1.shouldPoll = true ∧ s1.store.generatingBriefingId = some briefingId then
        ({ s1 with pollingTimeout := some (briefingId, 5000) },
         { fetched := true, scheduledDelay := some 5000 })
      else
        (s1, { fetched := true })
    | Except.ok st =>
      if s1.shouldPoll = false ∨ s1.store.generatingBriefingId ≠ some briefingId then
        (s1, { fetched := true })
      else
        let store2 := setGenerationProgress s1.store st.progress_percent (strOrNull st.current_step)
        let s2 : ClientState := { s1 with store := store2 }
        if st.status = "completed" ∨ st.status = "completed_with_warnings" then
          let s3 := cancelPolling s2
          let s4 : ClientState := { s3 with store := stopGeneration s3.store }
          let doneAlert :=
            if st.status = "completed_with_warnings" ∧ 0 < st.errors.length then
              ("Briefing Ready", completedWithWarningsMessage st.errors.length)
            else
              ("Success", "Your briefing is ready to play!")
          (s4, { fetched := true, invalidatedBriefings := true, alertShown := some doneAlert })
        else if st.status = "failed" then
          let s3 := cancelPolling s2
          let s4 : ClientState := { s3 with store := stopGeneration s3.store }
          (s4, { fetched := true, alertShown := some ("Error", failedMessage st) })
        else if st.status = "cancelled" then
          let s3 := cancelPolling s2
          let s4 : ClientState := { s3 with store := stopGeneration s3.store }
          (s4, { fetched := true })
        else
          match st.pending_action with
          | some pa =>
            if st.status = "awaiting_confirmation" then
              let d := showErrorDialog capturedDialogShowing s2 pa
              let shown := if d.2 then some pa.action_id else none
              ({ d.1 with pollingTimeout := some (briefingId, 2000) },
               { fetched := true, scheduledDelay := some 2000, dialogPresented := shown })
            else
              ({ s2 with pollingTimeout := some (briefingId, 3000) },
               { fetched := true, scheduledDelay := some 3000 })
          | none =>
            ({ s2 with pollingTimeout := some (briefingId, 3000) },
             { fetched := true, scheduledDelay := some 3000 })

/-- A state from which the checkStatus closure of the session for
briefingId (with its captured dialog marker) never again fetches, never
schedules a timer, and never changes the state; since the state is
unchanged this persists forever. -/
def noFurtherPollAction (briefingId : Nat) (captured : Option String) (s : ClientState) : Prop :=
  ∀ result s1,
    (checkStatusStep briefingId captured s result s1).1 = s ∧
    (checkStatusStep briefingId captured s result s1).2.fetched = false ∧
    (checkStatusStep briefingId captured s result s1).2.scheduledDelay = none

/-- Prologue of pollGenerationStatus (HomeScreen.tsx lines 213-217): cancel
any existing polling loop, then raise the continue flag; checkStatus is
invoked synchronously from the resulting state. -/
def pollGenerationStatusStart (s : ClientState) : ClientState :=
  let s1 := cancelPolling s
  { s1 with shouldPoll := true }

/-- onSuccess of the generate mutation (HomeScreen.tsx lines 122-126):
startGeneration on the store, then start the polling session. -/
def generateOnSuccess (s : ClientState) (briefingId : Nat) : ClientState :=
  pollGenerationStatusStart { s with store := startGeneration s.store briefingId }

/-- onPress of the destructive button of handleCancelGeneration
(HomeScreen.tsx lines 318-332): capture the active id, synchronously cancel
polling and clear the store, then fire the best-effort backend cancel call
whose failure is only logged.  backendOk is the outcome of that call; the
second component is the client state at the moment cancelBriefing is
invoked together with the id sent, or none when the captured id is falsy
and no request is made. -/
def handleCancelGeneration (s : ClientState) (backendOk : Bool) :
    ClientState × Option (ClientState × Nat) :=
  let briefingId := s.store.generatingBriefingId
  let s1 := cancelPolling s
  let s2 : ClientState := { s1 with store := stopGeneration s1.store }
  let _ := backendOk
  match briefingId with
  | some bid => if bid ≠ 0 then (s2, some (s2, bid)) else (s2, none)
  | none => (s2, none)

/-- Concrete store with job 7 active at 40 percent, for witnesses. -/
def sampleStore : BriefingsState :=
  { briefings := []
    currentBriefing := none
    currentSegment := none
    isGenerating := true
    generatingBriefingId := some 7
    generationProgress := 40
    generationStep := some "Writing script" }

/-- Concrete client state with an active polling session for job 7. -/
def sampleActive : ClientState :=
  { store := sampleStore
    shouldPoll := true
    pollingTimeout := none
    errorDialogShowing := none }

/-- Concrete client state after the user cancelled: the store no longer
names job 7. -/
def sampleStale : ClientState :=
  { store := stopGeneration sampleStore
    shouldPoll := false
    pollingTimeout := none
    errorDialogShowing := none }

/-- Concrete recoverable error for witnesses. -/
def sampleError : GenerationError :=
  { phase := "content"
    component := "weather"
    message := "Weather API down"
    recoverable := true
    fallback_description := some "Skip weather segment" }

/-- Concrete pending action for witnesses. -/
def samplePendingAction : PendingAction :=
  { action_id := "a1", error := sampleError, options := ["continue", "cancel"] }

/-- Concrete awaiting_confirmation response carrying a pending action. -/
def sampleAwaiting : GenerationStatus :=
  { briefing_id := 7
    status := "awaiting_confirmation"
    progress_percent := 45
    current_step := some "Awaiting confirmation"
    error := none
    errors := []
    pending_action := some samplePendingAction }

/-- Concrete awaiting_confirmation response with no pending action. -/
def sampleAwaitingNoAction : GenerationStatus :=
  { sampleAwaiting with pending_action := none }

/-- Concrete completed response. -/
def sampleCompleted : GenerationStatus :=
  { briefing_id := 7
    status := "completed"
    progress_percent := 100
    current_step := none
    error := none
    errors := []
    pending_action := none }

/-- Concrete failed response with one accumulated error. -/
def sampleFailed : GenerationStatus :=
  { briefing_id := 7
    status := "failed"
    progress_percent := 60
    current_step := none
    error := some "boom"
    errors := [{ phase := "audio", component := "tts", message := "TTS quota exceeded",
                 recoverable := false, fallback_description := none }]
    pending_action := none }

/-- Concrete non-terminal progress response. -/
def sampleProgressing : GenerationStatus :=
  { briefing_id := 7
    status := "gathering_content"
    progress_percent := 10
    current_step := some "Gathering content"
    error := none
    errors := []
    pending_action := none }

/-- Helper: a state whose continue flag is down never fetches, schedules or
changes anything again in its session. -/
theorem noFurtherPollAction_of_not_shouldPoll (briefingId : Nat) (captured : Option String)
    (s : ClientState) (h : s.shouldPoll = false) : noFurtherPollAction briefingId captured s := by
  intro result s1
  simp [checkStatusStep, h]

/-- C9: the persisted projection of the briefings store keeps exactly the
first 20 cached briefings and the current briefing, and is invariant under
every change of the in-flight generation fields (isGenerating,
generatingBriefingId, generationProgress, generationStep), which are
therefore never persisted. -/
theorem partialize_persists_only_list_and_current (s : BriefingsState)
    (b : Bool) (oid : Option Nat) (p : Int) (step : Option String) :
    (partialize s).briefings = s.briefings.take 20 ∧
    (partialize s).briefings.length ≤ 20 ∧
    (partialize s).currentBriefing = s.currentBriefing ∧
    partialize { s with isGenerating := b, generatingBriefingId := oid,
                        generationProgress := p, generationStep := step }
      = partialize s := by
  refine ⟨rfl, ?_, rfl, rfl⟩
  simp [partialize]

/-- C7: starting a new polling session first synchronously cancels the
prior session (continue flag cleared, pending timer removed) and only then
raises the flag for the new session; the state from which the new session
issues its first poll carries no pending timer of any prior session, so at
most one session is ever polling. -/
theorem new_session_cancels_prior (s : ClientState) (briefingId : Nat) :
    (cancelPolling s).shouldPoll = false ∧
    (cancelPolling s).pollingTimeout = none ∧
    pollGenerationStatusStart s = { cancelPolling s with shouldPoll := true } ∧
    (pollGenerationStatusStart s).pollingTimeout = none ∧
    (generateOnSuccess s briefingId).pollingTimeout = none ∧
    (generateOnSuccess s briefingId).shouldPoll = true ∧
    (generateOnSuccess s briefingId).store.generatingBriefingId = some briefingId := by
  refine ⟨rfl, rfl, rfl, rfl, rfl, rfl, rfl⟩

/-- C1: once a status response carrying a terminal status (completed,
completed_with_warnings, failed or cancelled) for job X is applied by the
polling step, no further poll is scheduled, the continue flag and timer are
cleared, the active job id is cleared, and the session is in a state from
which no poll action is ever emitted again. -/
theorem terminal_status_stops_polling (briefingId : Nat) (captured : Option String)
    (s0 s1 : ClientState) (st : GenerationStatus)
    (hp : s0.shouldPoll = true) (hid : s0.store.generatingBriefingId = some briefingId)
    (hq : s1.shouldPoll = true) (hid1 : s1.store.generatingBriefingId = some briefingId)
    (hterm : st.status = "completed" ∨ st.status = "completed_with_warnings" ∨
             st.status = "failed" ∨ st.status = "cancelled") :
    (checkStatusStep briefingId captured s0 (Except.ok st) s1).2.scheduledDelay = none ∧
    (checkStatusStep briefingId captured s0 (Except.ok st) s1).1.shouldPoll = false ∧
    (checkStatusStep briefingId captured s0 (Except.ok st) s1).1.pollingTimeout = none ∧
    (checkStatusStep briefingId captured s0 (Except.ok st) s1).1.store.generatingBriefingId
        = none ∧
    noFurtherPollAction briefingId captured
      (checkStatusStep briefingId captured s0 (Except.ok st) s1).1 := by
  rcases hterm with h | h | h | h <;>
    refine ⟨?_, ?_, ?_, ?_, noFurtherPollAction_of_not_shouldPoll _ _ _ ?_⟩ <;>
    simp [checkStatusStep, hp, hid, hq, hid1, h, cancelPolling, stopGeneration,
          setGenerationProgress]

/-- C1 witness: a completed response applied to the concrete active session
for job 7 schedules nothing further. -/
theorem terminal_status_stops_polling_witness :
    sampleActive.shouldPoll = true ∧
    (checkStatusStep 7 none sampleActive (Except.ok sampleCompleted)
        sampleActive).2.scheduledDelay = none ∧
    (checkStatusStep 7 none sampleActive (Except.ok sampleCompleted)
        sampleActive).1.shouldPoll = false := by
  have h := terminal_status_stops_polling 7 none sampleActive sampleActive sampleCompleted
    rfl rfl rfl rfl (Or.inl rfl)
  exact ⟨rfl, h.1, h.2.1⟩

/-- C2: if the active job id moved away from this session while its request
was in flight, processing the response (successful or thrown) leaves every
generation field of the store exactly as it was at response time. -/
theorem stale_response_leaves_store_unchanged (briefingId : Nat) (captured : Option String)
    (s0 s1 : ClientState) (result : Except Unit GenerationStatus)
    (hp : s0.shouldPoll = true) (hid : s0.store.generatingBriefingId = some briefingId)
    (hstale : s1.store.generatingBriefingId ≠ some briefingId) :
    (checkStatusStep briefingId captured s0 result s1).1.store.isGenerating
        = s1.store.isGenerating ∧
    (checkStatusStep briefingId captured s0 result s1).1.store.generatingBriefingId
        = s1.store.generatingBriefingId ∧
    (checkStatusStep briefingId captured s0 result s1).1.store.generationProgress
        = s1.store.generationProgress ∧
    (checkStatusStep briefingId captured s0 result s1).1.store.generationStep
        = s1.store.generationStep := by
  have hres : (checkStatusStep briefingId captured s0 result s1).1 = s1 := by
    cases result <;> simp [checkStatusStep, hp, hid, hstale]
  rw [hres]
  exact ⟨rfl, rfl, rfl, rfl⟩

/-- C2 witness: an in-flight progress response for job 7 arriving after the
user cancelled (the store names no job) leaves the cleared store cleared. -/
theorem stale_response_leaves_store_unchanged_witness :
    sampleStale.store.generatingBriefingId ≠ some 7 ∧
    (checkStatusStep 7 none sampleActive (Except.ok sampleProgressing)
        sampleStale).1.store.isGenerating = sampleStale.store.isGenerating ∧
    (checkStatusStep 7 none sampleActive (Except.ok sampleProgressing)
        sampleStale).1.store.generationProgress = sampleStale.store.generationProgress := by
  have h := stale_response_leaves_store_unchanged 7 none sampleActive sampleStale
    (Except.ok sampleProgressing) rfl rfl (by decide)
  exact ⟨by decide, h.1, h.2.2.1⟩

/-- C10: when getBriefingStatus throws, the step leaves the whole store as
it was at response time; in particular the generation fields are untouched,
and progress and step are only ever written on the successful, non-stale
path. -/
theorem fetch_error_preserves_generation_state (briefingId : Nat) (captured : Option String)
    (s0 s1 : ClientState)
    (hp : s0.shouldPoll = true) (hid : s0.store.generatingBriefingId = some briefingId) :
    (checkStatusStep briefingId captured s0 (Except.error ()) s1).1.store = s1.store ∧
    (checkStatusStep briefingId captured s0 (Except.error ()) s1).1.store.isGenerating
        = s1.store.isGenerating ∧
    (checkStatusStep briefingId captured s0 (Except.error ()) s1).1.store.generatingBriefingId
        = s1.store.generatingBriefingId ∧
    (checkStatusStep briefingId captured s0 (Except.error ()) s1).1.store.generationProgress
        = s1.store.generationProgress ∧
    (checkStatusStep briefingId captured s0 (Except.error ()) s1).1.store.generationStep
        = s1.store.generationStep := by
  have hres : (checkStatusStep briefingId captured s0 (Except.error ()) s1).1.store
      = s1.store := by
    by_cases hc : s1.shouldPoll = true ∧ s1.store.generatingBriefingId = some briefingId
    · simp [checkStatusStep, hp, hid, hc]
    · simp [checkStatusStep, hp, hid, hc]
  rw [hres]
  exact ⟨rfl, rfl, rfl, rfl, rfl⟩

/-- C10 witness: a thrown poll for the concrete active session leaves the
store at 40 percent for job 7. -/
theorem fetch_error_preserves_generation_state_witness :
    (checkStatusStep 7 none sampleActive (Except.error ()) sampleActive).1.store
      = sampleActive.store ∧
    (checkStatusStep 7 none sampleActive (Except.error ()) sampleActive).1.store.generationProgress
      = 40 := by
  have h := fetch_error_preserves_generation_state 7 none sampleActive sampleActive rfl rfl
  exact ⟨h.1, h.2.2.2.1⟩

/-- C6 (amended): for every applied, non-final poll step the next delay is:
2000 ms after a successful fetch yielding awaiting_confirmation together
with a pending action; 3000 ms after any other successful non-terminal
fetch, including awaiting_confirmation responses that carry no pending
action; 5000 ms after a thrown fetch. -/
theorem poll_delay_by_branch (briefingId : Nat) (captured : Option String)
    (s0 s1 : ClientState) (st : GenerationStatus)
    (hp : s0.shouldPoll = true) (hid : s0.store.generatingBriefingId = some briefingId)
    (hq : s1.shouldPoll = true) (hid1 : s1.store.generatingBriefingId = some briefingId)
    (h1 : st.status ≠ "completed") (h2 : st.status ≠ "completed_with_warnings")
    (h3 : st.status ≠ "failed") (h4 : st.status ≠ "cancelled") :
    ((st.status = "awaiting_confirmation" ∧ st.pending_action.isSome) →
        (checkStatusStep briefingId captured s0 (Except.ok st) s1).2.scheduledDelay
          = some 2000) ∧
    ((st.status = "awaiting_confirmation" → st.pending_action = none) →
        (checkStatusStep briefingId captured s0 (Except.ok st) s1).2.scheduledDelay
          = some 3000) ∧
    (checkStatusStep briefingId captured s0 (Except.error ()) s1).2.scheduledDelay
        = some 5000 := by
  refine ⟨?_, ?_, ?_⟩
  · rintro ⟨ha, hpa⟩
    obtain ⟨pa, hpa'⟩ := Option.isSome_iff_exists.mp hpa
    simp [checkStatusStep, hp, hid, hq, hid1, ha, hpa']
  · intro himp
    cases hpa : st.pending_action with
    | none => simp [checkStatusStep, hp, hid, hq, hid1, h1, h2, h3, h4, hpa]
    | some pa =>
        by_cases haw : st.status = "awaiting_confirmation"
        · exact absurd (himp haw) (by simp [hpa])
        · simp [checkStatusStep, hp, hid, hq, hid1, h1, h2, h3, h4, haw, hpa]
  · simp [checkStatusStep, hp, hid, hq, hid1]

/-- C6 counterexample: an awaiting_confirmation response without a pending
action, applied to the concrete active session for job 7, schedules the
next poll after 3000 ms, not the 2000 ms the claim requires for every
awaiting_confirmation fetch. -/
theorem awaiting_without_action_schedules_3000 :
    (checkStatusStep 7 none sampleActive (Except.ok sampleAwaitingNoAction)
        sampleActive).2.scheduledDelay = some 3000 ∧
    (some 3000 : Option Nat) ≠ some 2000 := by
  constructor
  · decide
  · decide

/-- C6 witness: on the concrete active session, an awaiting_confirmation
response with a pending action gives 2000 ms and a thrown fetch gives
5000 ms. -/
theorem poll_delay_by_branch_witness :
    (checkStatusStep 7 none sampleActive (Except.ok sampleAwaiting)
        sampleActive).2.scheduledDelay = some 2000 ∧
    (checkStatusStep 7 none sampleActive (Except.error ())
        sampleActive).2.scheduledDelay = some 5000 := by
  have h := poll_delay_by_branch 7 none sampleActive sampleActive sampleAwaiting
    rfl rfl rfl rfl (by decide) (by decide) (by decide) (by decide)
  exact ⟨h.1 ⟨rfl, rfl⟩, h.2.2⟩

/-- C8: applying a failed response shows one Error alert whose text is the
message of the last element of the errors list when that list is non-empty
and otherwise the error field with the generic fallback (JavaScript
or-semantics, so an absent or empty error field yields the fallback);
polling stops and the active job is cleared. -/
theorem failed_status_alert_and_cleanup (briefingId : Nat) (captured : Option String)
    (s0 s1 : ClientState) (st : GenerationStatus)
    (hp : s0.shouldPoll = true) (hid : s0.store.generatingBriefingId = some briefingId)
    (hq : s1.shouldPoll = true) (hid1 : s1.store.generatingBriefingId = some briefingId)
    (hf : st.status = "failed") :
    (checkStatusStep briefingId captured s0 (Except.ok st) s1).2.alertShown
        = some ("Error", failedMessage st) ∧
    (∀ e, st.errors.getLast? = some e → failedMessage st = e.message) ∧
    (st.errors = [] →
        failedMessage st = strOrDefault st.error "Generation failed") ∧
    (∀ m, st.error = some m → m ≠ "" →
        strOrDefault st.error "Generation failed" = m) ∧
    (st.error = none ∨ st.error = some "" →
        strOrDefault st.error "Generation failed" = "Generation failed") ∧
    (checkStatusStep briefingId captured s0 (Except.ok st) s1).2.scheduledDelay = none ∧
    (checkStatusStep briefingId captured s0 (Except.ok st) s1).1.shouldPoll = false ∧
    (checkStatusStep briefingId captured s0 (Except.ok st) s1).1.store.generatingBriefingId
        = none ∧
    (checkStatusStep briefingId captured s0 (Except.ok st) s1).1.store.isGenerating
        = false := by
  refine ⟨?_, ?_, ?_, ?_, ?_, ?_, ?_, ?_, ?_⟩
  · simp [checkStatusStep, hp, hid, hq, hid1, hf]
  · intro e he
    simp [failedMessage, he]
  · intro he
    simp [failedMessage, he]
  · intro m hm hne
    simp [strOrDefault, hm, hne]
  · rintro (hm | hm) <;> simp [strOrDefault, hm]
  · simp [checkStatusStep, hp, hid, hq, hid1, hf]
  · simp [checkStatusStep, hp, hid, hq, hid1, hf, cancelPolling]
  · simp [checkStatusStep, hp, hid, hq, hid1, hf, cancelPolling, stopGeneration,
          setGenerationProgress]
  · simp [checkStatusStep, hp, hid, hq, hid1, hf, cancelPolling, stopGeneration,
          setGenerationProgress]

/-- C8 witness: the concrete failed response with errors list showing one
TTS failure alerts with the message of that last error, and the session
stops. -/
theorem failed_status_alert_and_cleanup_witness :
    (checkStatusStep 7 none sampleActive (Except.ok sampleFailed) sampleActive).2.alertShown
      = some ("Error", "TTS quota exceeded") ∧
    (checkStatusStep 7 none sampleActive (Except.ok sampleFailed) sampleActive).1.shouldPoll
      = false := by
  have h := failed_status_alert_and_cleanup 7 none sampleActive sampleActive sampleFailed
    rfl rfl rfl rfl rfl
  refine ⟨?_, h.2.2.2.2.2.2.1⟩
  have hm : failedMessage sampleFailed = "TTS quota exceeded" :=
    h.2.1 { phase := "audio", component := "tts", message := "TTS quota exceeded",
            recoverable := false, fallback_description := none } (by decide)
  rw [h.1, hm]

/-- C3: the claim fails on the code.  The duplicate-dialog guard at
HomeScreen.tsx line 172 compares against the errorDialogShowing value the
showErrorDialog closure captured when the polling session started, and the
running checkStatus timer chain holds that one closure for its whole life,
so in a session started while no dialog was showing the captured marker
stays none even after the live marker is set to the action id.  Two
successive awaiting_confirmation polls for the same pending action with no
intervening resolution therefore present two dialogs, not the single
presentation required by the claim, by P2 of the spec, and by the intent
stated in the comment at HomeScreen.tsx lines 61-62. -/
theorem stale_marker_presents_duplicate_dialogs :
    (showErrorDialogRepeat none samplePendingAction 2 sampleActive).2 = 2 ∧
    (showErrorDialogRepeat none samplePendingAction 2 sampleActive).1.errorDialogShowing
      = some samplePendingAction.action_id ∧
    (2 : Nat) ≠ 1 := by
  refine ⟨by decide, by decide, by decide⟩

/-- C4 (amended): resolving a pending action with decision cancel stops
polling and clears the generation store only when the resolveError network
call succeeds; when that call throws, the handler only clears the dialog
marker and shows an error alert, leaving the continue flag, the pending
timer and every store field untouched. -/
theorem resolve_cancel_cleanup_only_on_success (s : ClientState) (briefingId : Nat)
    (actionId : String) :
    (handleErrorDecision s briefingId actionId "cancel" true).1.shouldPoll = false ∧
    (handleErrorDecision s briefingId actionId "cancel" true).1.pollingTimeout = none ∧
    (handleErrorDecision s briefingId actionId "cancel" true).1.store.isGenerating = false ∧
    (handleErrorDecision s briefingId actionId "cancel" true).1.store.generatingBriefingId
        = none ∧
    (handleErrorDecision s briefingId actionId "cancel" true).2.alertShown
        = some ("Cancelled", "Briefing generation was cancelled.") ∧
    (handleErrorDecision s briefingId actionId "cancel" false).1
        = { s with errorDialogShowing := none } ∧
    (handleErrorDecision s briefingId actionId "cancel" false).2.alertShown
        = some ("Error", "Failed to send decision to server.") := by
  refine ⟨?_, ?_, ?_, ?_, ?_, ?_, ?_⟩ <;>
    simp [handleErrorDecision, cancelPolling, stopGeneration]

/-- C4 counterexample: on the concrete state with job 7 active, resolving
with decision cancel while the resolveError call fails leaves the continue
flag raised and the store still generating job 7, so the claimed cleanup
does not happen in every case. -/
theorem resolve_cancel_failure_keeps_polling :
    (handleErrorDecision sampleActive 7 "a1" "cancel" false).1.shouldPoll = true ∧
    (handleErrorDecision sampleActive 7 "a1" "cancel" false).1.store.isGenerating = true ∧
    (handleErrorDecision sampleActive 7 "a1" "cancel" false).1.store.generatingBriefingId
      = some 7 := by
  refine ⟨?_, ?_, ?_⟩ <;> decide

/-- C5: user-initiated cancellation clears the active job id and stops
polling synchronously, the backend cancel request (when one is issued at
all) is issued from a state in which that local transition has already
happened, and the whole handler is independent of whether the backend call
succeeds or throws. -/
theorem user_cancel_immediate_and_backend_independent (s : ClientState) (backendOk : Bool) :
    handleCancelGeneration s backendOk = handleCancelGeneration s true ∧
    (handleCancelGeneration s backendOk).1.shouldPoll = false ∧
    (handleCancelGeneration s backendOk).1.pollingTimeout = none ∧
    (handleCancelGeneration s backendOk).1.store.isGenerating = false ∧
    (handleCancelGeneration s backendOk).1.store.generatingBriefingId = none ∧
    (∀ rs bid, (handleCancelGeneration s backendOk).2 = some (rs, bid) →
        rs.shouldPoll = false ∧ rs.pollingTimeout = none ∧
        rs.store.isGenerating = false ∧ rs.store.generatingBriefingId = none) := by
  have hstate : ∀ b : Bool, (handleCancelGeneration s b).1
      = { cancelPolling s with store := stopGeneration s.store } := by
    intro b
    cases hb : s.store.generatingBriefingId with
    | none => simp [handleCancelGeneration, hb, cancelPolling]
    | some bid =>
        by_cases hz : bid ≠ 0 <;> simp [handleCancelGeneration, hb, hz, cancelPolling]
  have hind : handleCancelGeneration s backendOk = handleCancelGeneration s true := rfl
  refine ⟨hind, ?_, ?_, ?_, ?_, ?_⟩
  · rw [hstate backendOk]; rfl
  · rw [hstate backendOk]; rfl
  · rw [hstate backendOk]; simp [stopGeneration]
  · rw [hstate backendOk]; simp [stopGeneration]
  · intro rs bid hreq
    have hrs : rs = { cancelPolling s with store := stopGeneration s.store } := by
      cases hb : s.store.generatingBriefingId with
      | none => simp [handleCancelGeneration, hb] at hreq
      | some bid0 =>
          by_cases hz : bid0 ≠ 0
          · rw [handleCancelGeneration] at hreq
            simp [hb, hz] at hreq
            exact hreq.1.symm
          · rw [handleCancelGeneration] at hreq
            simp [hb, hz] at hreq
    rw [hrs]
    refine ⟨rfl, rfl, ?_, ?_⟩ <;> simp [stopGeneration]

/-- C5 witness: cancelling the concrete active session for job 7 while the
backend call throws still clears everything locally, and the backend cancel
request for job 7 is issued from the already-cleared state. -/
theorem user_cancel_immediate_witness :
    (handleCancelGeneration sampleActive false).2 = some (sampleStale, 7) ∧
    sampleStale.shouldPoll = false ∧
    sampleStale.store.generatingBriefingId = none := by
  have h := (user_cancel_immediate_and_backend_independent sampleActive false).2.2.2.2.2
    sampleStale 7 (by decide)
  exact ⟨by decide, h.1, h.2.2.2⟩

end MorningDrive
